import Mathlib

/-
Verification of the tomography pipeline controller in
src/tomopy_ui/aps13bm_gui.py (class APS_13BM).

The volume is embedded as a nested list of rationals with numpy axis order
(angle, row, column).  The external numerical kernels (tomopy, scipy) are
out of scope per the design document; each embedded controller method is
parametrised over the kernels it invokes, so that every theorem quantifies
over all possible kernel behaviours, except where a documented interface
contract (such as the output shape of the reconstruction kernel) is needed,
in which case the contract is modelled explicitly and marked as such.

GUI text fields are embedded as already-parsed numeric fields; the status
label is carried as a string field so that failure statuses are observable.
-/

/-- A detector image: a list of rows, each a list of column samples. -/
abbrev Mat : Type := List (List ℚ)

/-- A data volume with axis order (angle, row, column), as in the source. -/
abbrev Vol : Type := List Mat

/-- Elementwise map over every sample of a volume. -/
def vmap (f : ℚ → ℚ) (v : Vol) : Vol :=
  v.map (fun m => m.map (fun r => r.map f))

/-- Extent of axis 0 of a volume, data.shape[0] in the source. -/
def ax0 (v : Vol) : ℕ := v.length

/-- Extent of axis 1 of a volume, data.shape[1] in the source. -/
def ax1 (v : Vol) : ℕ := (v.headD []).length

/-- Extent of axis 2 of a volume, data.shape[2] in the source. -/
def ax2 (v : Vol) : ℕ := ((v.headD []).headD []).length

/-- All samples of a volume in one flat list (used for max and min). -/
def volEntries (v : Vol) : List ℚ := (v.map List.flatten).flatten

/-- Model of numpy data.max() used for the data_max display field. -/
def volMax (v : Vol) : ℚ := (volEntries v).foldr max 0

/-- Model of numpy data.min() used for the data_min display field. -/
def volMin (v : Vol) : ℚ := (volEntries v).foldr min 0

/-- Edge-pad one detector row with n copies of each edge sample, the
axis-2 action of tp.misc.morph.pad(data, axis = 2, npad, mode = edge),
aps13bm_gui.py lines 726-729. -/
def padRow (n : ℕ) (r : List ℚ) : List ℚ :=
  List.replicate n (r.headD 0) ++ r ++ List.replicate n (r.getLastD 0)

/-- Symmetric edge padding of a volume along the column axis. -/
def tp_pad (v : Vol) (n : ℕ) : Vol :=
  v.map (fun m => m.map (padRow n))

/-- The literal constant the source writes as 1**-6 in
data[np.where(data < 0)] = 1**-6 (aps13bm_gui.py line 734).
In Python, 1**-6 is one to the power minus six, which is 1.0, and the
embedding keeps that exact expression. -/
def sentinel : ℚ := (1 : ℚ) ^ (-6 : ℤ)

/-- The negative-value flooring step of normalization, line 734 of the
source: every negative sample is overwritten with the sentinel constant. -/
def floor_negatives (v : Vol) : Vol :=
  vmap (fun x => if x < 0 then sentinel else x) v

/-- Data slice data[i:i+1,:,:] along axis 0 (Entropy centering branch). -/
def axis0Slice (v : Vol) (i : ℤ) : Vol := (v.drop i.toNat).take 1

/-- Projection data[i,:,:] (0-180 centering branch).  Python raises on an
out-of-range index; the embedding totalises with the empty image, which no
claim exercises. -/
def projAt (v : Vol) (i : ℤ) : Mat := v.getD i.toNat []

/-- Sinogram slice data[:,i:i+1,:] along axis 1 (Nghia Vo branch and the
single-slice reconstruction methods). -/
def rowSlice (v : Vol) (i : ℤ) : Vol :=
  v.map (fun m => (m.drop i.toNat).take 1)

/-- Modelled from the spec: the output geometry of the external
reconstruction kernel tp.recon (design document sections 4.4 and 6, and
the end-to-end scenario of section 8).  With sinogram_order = False the
angle axis collapses: the output holds one reconstructed slice per input
detector row, each an ax2 by ax2 grid; the sample values themselves are an
uninterpreted function k of all kernel inputs.  The kernel source is not
part of this repository. -/
def tp_recon (k : Vol → List ℚ → (ℕ → ℚ) → String → String → ℕ → ℕ → ℕ → ℚ)
    (v : Vol) (theta : List ℚ) (center : ℕ → ℚ) (algo fil : String) : Vol :=
  (List.range (ax1 v)).map (fun i =>
    (List.range (ax2 v)).map (fun j =>
      (List.range (ax2 v)).map (fun l => k v theta center algo fil i j l)))

/-- The mutable controller state: the subset of the wx.Frame attributes of
APS_13BM that the pipeline methods read or write.  Text-entry widgets are
embedded as parsed numeric fields, combo boxes as their resolved string
values, and the status label as a string.  The centering results
upper_rot_center, lower_rot_center and rot_center are attributes that do
not exist before find_rot_center first runs, hence Option. -/
structure State where
  data : Vol
  data_slice : Option Vol
  flat : Vol
  dark : Option Vol
  theta : List ℚ
  sx : ℤ
  sy : ℤ
  sz : ℤ
  data_max : ℚ
  data_min : ℚ
  pad_size : ℤ
  npad : ℤ
  cb : Bool
  ncore : ℤ
  nchunk : ℤ
  ncore_blank : ℤ
  nchunk_blank : ℤ
  ring_width_blank : ℤ
  zinger_kernel_size_blank : ℤ
  zinger_diff_blank : ℚ
  tol_blank : ℚ
  upper_rot_slice_blank : ℤ
  lower_rot_slice_blank : ℤ
  upper_rot_center_blank : ℚ
  lower_rot_center_blank : ℚ
  upper_rot_center : Option ℚ
  lower_rot_center : Option ℚ
  rot_center : Option ℚ
  find_center_type : String
  recon_type : String
  filter_type : String
  save_dtype : String
  save_data_type : String
  status : String
deriving DecidableEq

/-- Odd-size coercion as written twice in the source (lines 646-648 for the
ring kernel width and lines 667-669 for the zinger kernel size): an even
value is incremented by one, an odd value is kept. -/
def odd_coerced (k : ℤ) : ℤ :=
  if k % 2 == 0 then k + 1 else k

/-- APS_13BM.remove_ring, lines 635-656: coerce the ring width to odd and
hand the volume to the external stripe-removal kernel
tp.prep.stripe.remove_stripe_sf. -/
def remove_ring (stripe : Vol → ℤ → Vol) (s : State) : State :=
  let ring_width := odd_coerced s.ring_width_blank
  { s with nchunk := s.nchunk_blank
           ncore := s.ncore_blank
           data := stripe s.data ring_width
           status := "Ring removed." }

/-- APS_13BM.zinger_removal, lines 658-683: the zinger kernel size is read
and coerced to odd, but the size argument actually given to the external
kernel tp.remove_outlier is the raw ring-width field (line 675), so the
coerced value is dead.  The embedding keeps both computations. -/
def zinger_removal (outlier : Vol → ℚ → ℤ → ℤ → Vol) (s : State) : State :=
  let _zinger_kernel_size := odd_coerced s.zinger_kernel_size_blank
  let size := s.ring_width_blank
  { s with nchunk := s.nchunk_blank
           ncore := s.ncore_blank
           data := outlier s.data s.zinger_diff_blank size s.ncore_blank
           status := "Artifacts Removed." }

/-- The external kernels invoked by APS_13BM.normalization.  The minus-log
and NaN-replacement kernels act samplewise; rationals have no NaN, so the
NaN-cleanup action on one sample is an uninterpreted function. -/
structure NormKernels where
  normalize : Vol → Vol → Vol → Vol
  normalize_bg : Vol → ℤ → Vol
  minus_log : ℚ → ℚ
  nan_clean : ℚ → ℚ

/-- The volume after the flat and dark correction (line 705) and the
optional background air normalization (lines 712-714, guarded by the
check box flag cb). -/
def normCorrected (K : NormKernels) (s : State) : Vol :=
  let d1 := K.normalize s.data s.flat (s.dark.getD [])
  if s.cb then K.normalize_bg d1 10 else d1

/-- The fixed tail of normalization after optional padding, lines 731-760:
the dark array is released, negative samples are floored to the sentinel,
the minus-log kernel is applied in place, NaN are replaced, and the cached
extrema are refreshed. -/
def norm_tail (K : NormKernels) (s : State) : State :=
  let d4 := floor_negatives s.data
  let d5 := vmap K.minus_log d4
  let d6 := vmap K.nan_clean d5
  { s with data := d6
           dark := none
           data_max := volMax d6
           data_min := volMin d6
           status := "Preprocessing Complete" }

/-- APS_13BM.normalization, lines 685-765.  After the correction kernels,
padding is attempted when pad_size is nonzero: a pad_size strictly below
the current column extent aborts the method (normalized volume kept,
npad reset to zero, tail skipped and dark retained), otherwise npad is
(pad_size - columns) / 2 and the volume is edge-padded before the tail.
The int() truncation of the Python quotient agrees with the integer
division here because the guard makes the difference nonnegative. -/
def normalization (K : NormKernels) (s : State) : State :=
  let s0 := { s with nchunk := s.nchunk_blank, ncore := s.ncore_blank }
  let d2 := normCorrected K s
  if s.pad_size ≠ 0 then
    if s.pad_size < (ax2 d2 : ℤ) then
      { s0 with data := d2
                npad := 0
                status := "Pad Size too small for dataset. Normalized but no padding." }
    else
      let np := (s.pad_size - (ax2 d2 : ℤ)) / 2
      norm_tail K { s0 with data := tp_pad d2 np.toNat, npad := np }
  else
    norm_tail K { s0 with data := d2 }

/-- The external rotation-center search kernels of APS_13BM.find_rot_center:
tp.find_center (data slice, theta, ind, init, tol), tp.find_center_pc (two
opposing projections and tol) and tp.find_center_vo (sinogram slice). -/
structure CenterKernels where
  find_center : Vol → List ℚ → ℤ → ℚ → ℚ → ℚ
  find_center_pc : Mat → Mat → ℚ → ℚ
  find_center_vo : Vol → ℚ

/-- Shared tail of find_rot_center, lines 846-851: report success and
write the computed centers minus npad back into the two center fields.
When a center attribute is still unset Python would raise; the embedding
totalises with 0, a branch no claim reaches. -/
def center_labels_update (s : State) : State :=
  { s with status := "Rotation Center found."
           upper_rot_center_blank := (s.upper_rot_center.getD 0) - (s.npad : ℚ)
           lower_rot_center_blank := (s.lower_rot_center.getD 0) - (s.npad : ℚ) }

/-- APS_13BM.find_rot_center, lines 767-851.  Exactly one of three string
equality tests selects the algorithm.  Only the 0-180 branch guards the
requested slices, and it compares them against data.shape[2], the column
extent, with a strict inequality (lines 810-815); the Entropy and Nghia Vo
branches run unguarded. -/
def find_rot_center (K : CenterKernels) (s : State) : State :=
  let tol := s.tol_blank
  let upper_slice := s.upper_rot_slice_blank
  let lower_slice := s.lower_rot_slice_blank
  let upper_center := s.upper_rot_center_blank
  let lower_center := s.lower_rot_center_blank
  if s.find_center_type = "Entropy" then
    let uc := K.find_center (axis0Slice s.data upper_slice) s.theta upper_slice
                upper_center tol
    let lc := K.find_center (axis0Slice s.data lower_slice) s.theta upper_slice
                lower_center tol
    center_labels_update
      { s with upper_rot_center := some uc
               lower_rot_center := some lc
               rot_center := some ((uc + lc) / 2) }
  else if s.find_center_type = "0-180" then
    if upper_slice > (ax2 s.data : ℤ) then
      { s with status := "Upper slice out of range." }
    else if lower_slice > (ax2 s.data : ℤ) then
      { s with status := "Lower slice out of range." }
    else
      let a := (ax0 s.data : ℤ)
      let u_slice2 := (upper_slice + a / 2) % a
      let uc := K.find_center_pc (projAt s.data upper_slice) (projAt s.data u_slice2) tol
      let l_slice2 := (lower_slice + a / 2) % a
      let lc := K.find_center_pc (projAt s.data lower_slice) (projAt s.data l_slice2) tol
      center_labels_update
        { s with upper_rot_center := some uc
                 lower_rot_center := some lc
                 rot_center := some ((uc + lc) / 2) }
  else if s.find_center_type = "Nghia Vo" then
    let uc := K.find_center_vo (rowSlice s.data upper_slice)
    let lc := K.find_center_vo (rowSlice s.data lower_slice)
    center_labels_update
      { s with upper_rot_center := some uc
               lower_rot_center := some lc
               rot_center := some ((uc + lc) / 2) }
  else
    center_labels_update s

/-- Center value handed to the reconstruction kernels: npad is added back
onto the field value whenever padding is active (lines 862-863, 884-885
and 984-986). -/
def padded_center (c : ℚ) (npad : ℤ) : ℚ :=
  if npad ≠ 0 then c + (npad : ℚ) else c

/-- The per-angle center schedule of APS_13BM.reconstruct, lines 989-990:
center_slope = (lower - upper) / shape[0] and
center_array = upper + arange(shape[0]) * center_slope. -/
def center_array (upper lower : ℚ) (n : ℕ) : ℕ → ℚ :=
  fun i => upper + (i : ℚ) * ((lower - upper) / (n : ℚ))

/-- APS_13BM.reconstruct, lines 969-1026: read both center fields, add
npad back when padding is active, build the interpolated center schedule,
run the reconstruction kernel followed by NaN cleanup, then refresh the
recorded geometry sx, sy, sz and the cached extrema.  No precondition on
the centering state is checked anywhere in the method. -/
def reconstruct (k : Vol → List ℚ → (ℕ → ℚ) → String → String → ℕ → ℕ → ℕ → ℚ)
    (nan_clean : ℚ → ℚ) (s : State) : State :=
  let upper_rot_center := padded_center s.upper_rot_center_blank s.npad
  let lower_rot_center := padded_center s.lower_rot_center_blank s.npad
  let d1 := tp_recon k s.data s.theta
              (center_array upper_rot_center lower_rot_center (ax0 s.data))
              s.recon_type s.filter_type
  let d := vmap nan_clean d1
  { s with nchunk := s.nchunk_blank
           ncore := s.ncore_blank
           data := d
           status := "Reconstruction Complete"
           sx := (ax2 d : ℤ) - 2 * s.npad
           sy := (ax1 d : ℤ) - 2 * s.npad
           sz := (ax0 d : ℤ)
           data_max := volMax d
           data_min := volMin d }

/-- APS_13BM.up_recon_slice, lines 853-874: single-slice preview of the
upper reference slice, consuming the single scalar center from the upper
center field with npad added back when padding is active. -/
def up_recon_slice (k : Vol → List ℚ → (ℕ → ℚ) → String → String → ℕ → ℕ → ℕ → ℚ)
    (s : State) : State :=
  let upper_rot_center := padded_center s.upper_rot_center_blank s.npad
  let start := s.upper_rot_slice_blank
  let d := rowSlice s.data start
  { s with data_slice :=
             some (tp_recon k d s.theta (fun _ => upper_rot_center) s.recon_type "")
           status := "Slice Reconstructed." }

/-- APS_13BM.lower_recon_slice, lines 876-896: as up_recon_slice but for
the lower reference slice and center field. -/
def lower_recon_slice (k : Vol → List ℚ → (ℕ → ℚ) → String → String → ℕ → ℕ → ℕ → ℚ)
    (s : State) : State :=
  let lower_rot_center := padded_center s.lower_rot_center_blank s.npad
  let start := s.lower_rot_slice_blank
  let d := rowSlice s.data start
  { s with data_slice :=
             some (tp_recon k d s.theta (fun _ => lower_rot_center) s.recon_type "")
           status := "Slice Reconstructed." }

/-- The tilt angle of APS_13BM.tilt_correction, line 958:
(top_center - bottom_center) / (bottom_slice - top_slice), all four values
read from the centering text fields. -/
def tilt_angle (s : State) : ℚ :=
  (s.upper_rot_center_blank - s.lower_rot_center_blank) /
    ((s.lower_rot_slice_blank : ℚ) - (s.upper_rot_slice_blank : ℚ))

/-- In-place loop of tilt_correction, lines 960-963: the first n
projections of the volume are replaced by their rotated versions, the rest
are left untouched. -/
def rotateFirst (rot : Mat → Mat) : ℕ → Vol → Vol
  | _, [] => []
  | 0, v => v
  | n + 1, p :: v => rot p :: rotateFirst rot n v

/-- APS_13BM.tilt_correction, lines 944-967: rotate the projections at
indices 0 through nangles - 2 in place by the tilt angle; the projection
at index nangles - 1 is never visited by the loop over range(nangles-1).
The rotation kernel scipy.ndimage.rotate is external and uninterpreted. -/
def tilt_correction (rot : Mat → ℚ → Mat) (s : State) : State :=
  let nangles := s.data.length
  let angle := tilt_angle s
  { s with data := rotateFirst (fun p => rot p angle) (nangles - 1) s.data
           status := "Tilt Corrected" }

/-- The argument bundle of the one call to the external format-specific
writer save_recon of the save_data module (lines 1111-1115). -/
structure WriterCall where
  data_type : String
  save_dtype : String
  npad : ℤ
  data : Vol
deriving DecidableEq

/-- APS_13BM.save_recon, lines 1094-1121: exporting the packed-volume
container (.vol) with an unsigned dtype (u1 or u2) is rejected up front
and the writer is never called; otherwise the writer is invoked with the
resolved parameters.  The second component records the writer call, none
meaning the writer was not invoked. -/
def save_recon (s : State) : State × Option WriterCall :=
  if s.save_data_type = ".vol" ∧ (s.save_dtype = "u1" ∨ s.save_dtype = "u2") then
    ({ s with status := "netCDF3 does not support unsigned images" }, none)
  else
    ({ s with status := "Saving completed." },
     some { data_type := s.save_data_type
            save_dtype := s.save_dtype
            npad := s.npad
            data := s.data })

/-- APS_13BM state directly after a successful data import: the __init__
defaults of lines 112-294 combined with the field seeding of
client_read_nc, lines 518-534.  The center fields are seeded with sx / 2
and the slice fields with int(sz - 3*(sz/4)) and int(sz - sz/4); the
centering result attributes do not exist yet.  The truncation of the
float quotients is modelled with the floor, exact for nonnegative sz. -/
def importState (sx sy sz : ℤ) (data_max data_min : ℚ)
    (data flat dark : Vol) (theta : List ℚ) : State :=
  { data := data
    data_slice := none
    flat := flat
    dark := some dark
    theta := theta
    sx := sx
    sy := sy
    sz := sz
    data_max := data_max
    data_min := data_min
    pad_size := 2048
    npad := 0
    cb := true
    ncore := 12
    nchunk := 128
    ncore_blank := 12
    nchunk_blank := 128
    ring_width_blank := 9
    zinger_kernel_size_blank := 3
    zinger_diff_blank := 0
    tol_blank := 1 / 4
    upper_rot_slice_blank := ⌊(sz : ℚ) - 3 * ((sz : ℚ) / 4)⌋
    lower_rot_slice_blank := ⌊(sz : ℚ) - (sz : ℚ) / 4⌋
    upper_rot_center_blank := (sx : ℚ) / 2
    lower_rot_center_blank := (sx : ℚ) / 2
    upper_rot_center := none
    lower_rot_center := none
    rot_center := none
    find_center_type := "Nghia Vo"
    recon_type := "gridrec"
    filter_type := "hann"
    save_dtype := "f4"
    save_data_type := ".vol"
    status := "Data Imported" }

/-- A small concrete controller state used by the concrete evaluations:
a 2 by 1 by 3 volume with padding inactive. -/
def testState : State :=
  importState 3 1 2 6 1 [[[1, 2, 3]], [[4, 5, 6]]] [[[1, 1, 1]]] [[[0, 0, 0]]] [0, 1]

/-- Identity instantiation of the normalization kernels for concrete runs. -/
def K_id : NormKernels :=
  { normalize := fun v _ _ => v
    normalize_bg := fun v _ => v
    minus_log := id
    nan_clean := id }

/-- Constant instantiation of the centering kernels for concrete runs. -/
def CK_const : CenterKernels :=
  { find_center := fun _ _ _ _ _ => 3
    find_center_pc := fun _ _ _ => 3
    find_center_vo := fun _ => 3 }

/-- Constant sample oracle for the reconstruction kernel in concrete runs. -/
def k_const : Vol → List ℚ → (ℕ → ℚ) → String → String → ℕ → ℕ → ℕ → ℚ :=
  fun _ _ _ _ _ _ _ _ => 5

/-- Concrete centering state: Nghia Vo variant, requested upper row index
equal to the row extent of the volume (1), previously stored centers 0. -/
def c3State : State :=
  { testState with
      find_center_type := "Nghia Vo"
      upper_rot_slice_blank := 1
      lower_rot_slice_blank := 0
      upper_rot_center := some 0
      lower_rot_center := some 0
      rot_center := some 0 }

/-- Concrete normalization state whose target pad size equals the column
count of the volume (both 2). -/
def c4State : State :=
  { testState with data := [[[1, 2]]], pad_size := 2, cb := false }

/-- Concrete normalization state whose target pad size is strictly below
the column count of the volume. -/
def c4FailState : State :=
  { testState with data := [[[1, 2]]], pad_size := 1, cb := false }

/-- Concrete normalization state with padding disabled. -/
def c7State : State :=
  { testState with pad_size := 0, cb := false }

/-- Concrete reconstruction state: 2 angles, 1 row, 4 columns, pad 1. -/
def c8State : State :=
  { testState with data := [[[1, 2, 3, 4]], [[5, 6, 7, 8]]], npad := 1, sy := 1 }

/-- Concrete centering state with active padding (npad = 2). -/
def c9State : State :=
  { testState with npad := 2, find_center_type := "Nghia Vo" }

/-- Concrete rotation kernel for the tilt-correction evaluation. -/
def rotK : Mat → ℚ → Mat :=
  fun p _ => p.map (fun r => r.map (fun x => x + x))

/-- The volume after the optional padding step of normalization, i.e. the
input of the fixed normalization tail. -/
def norm_padded (K : NormKernels) (s : State) : Vol :=
  if s.pad_size ≠ 0 then
    tp_pad (normCorrected K s) ((s.pad_size - (ax2 (normCorrected K s) : ℤ)) / 2).toNat
  else normCorrected K s

/-
Shape lemmas for the elementwise map and the reconstruction kernel model.
-/

theorem ax0_vmap (f : ℚ → ℚ) (v : Vol) : ax0 (vmap f v) = ax0 v := by
  simp [ax0, vmap]

theorem ax1_vmap (f : ℚ → ℚ) (v : Vol) : ax1 (vmap f v) = ax1 v := by
  cases v <;> simp [ax1, vmap]

theorem ax2_vmap (f : ℚ → ℚ) (v : Vol) : ax2 (vmap f v) = ax2 v := by
  cases v with
  | nil => simp [ax2, vmap]
  | cons m t => cases m <;> simp [ax2, vmap]

theorem ax0_tp_recon (k : Vol → List ℚ → (ℕ → ℚ) → String → String → ℕ → ℕ → ℕ → ℚ)
    (v : Vol) (theta : List ℚ) (center : ℕ → ℚ) (algo fil : String) :
    ax0 (tp_recon k v theta center algo fil) = ax1 v := by
  simp [ax0, tp_recon]

theorem ax1_tp_recon (k : Vol → List ℚ → (ℕ → ℚ) → String → String → ℕ → ℕ → ℕ → ℚ)
    (v : Vol) (theta : List ℚ) (center : ℕ → ℚ) (algo fil : String) (h : 0 < ax1 v) :
    ax1 (tp_recon k v theta center algo fil) = ax2 v := by
  obtain ⟨r, hr⟩ : ∃ r, ax1 v = r + 1 := ⟨ax1 v - 1, (Nat.succ_pred_eq_of_pos h).symm⟩
  unfold tp_recon
  rw [hr]
  simp only [List.range_succ_eq_map, List.map_cons]
  simp [ax1]

theorem ax2_tp_recon (k : Vol → List ℚ → (ℕ → ℚ) → String → String → ℕ → ℕ → ℕ → ℚ)
    (v : Vol) (theta : List ℚ) (center : ℕ → ℚ) (algo fil : String)
    (h1 : 0 < ax1 v) (h2 : 0 < ax2 v) :
    ax2 (tp_recon k v theta center algo fil) = ax2 v := by
  obtain ⟨r, hr⟩ : ∃ r, ax1 v = r + 1 := ⟨ax1 v - 1, (Nat.succ_pred_eq_of_pos h1).symm⟩
  obtain ⟨c, hc⟩ : ∃ c, ax2 v = c + 1 := ⟨ax2 v - 1, (Nat.succ_pred_eq_of_pos h2).symm⟩
  unfold tp_recon
  rw [hr, hc]
  simp only [List.range_succ_eq_map, List.map_cons]
  simp [ax2]

/-
Claim C1.  The source method APS_13BM.reconstruct contains no
precondition check at all: there is no CentersNotResolved failure path,
the center fields (seeded with sx / 2 at import) are consumed silently,
and the volume is replaced by the kernel output.
-/

/-- C1, counterexample to the claim as stated: in the state reached
directly after import the centering results are unset (none), yet
full-volume reconstruction succeeds with status Reconstruction Complete
and the volume is not left byte-for-byte unchanged. -/
theorem claim1_counterexample :
    testState.upper_rot_center = none ∧ testState.lower_rot_center = none ∧
    (reconstruct k_const id testState).status = "Reconstruction Complete" ∧
    (reconstruct k_const id testState).data ≠ testState.data := by
  refine ⟨by decide, by decide, by decide, by decide⟩

/-- C1, amended: a full-volume reconstruction request made while the
centering results are unset does not fail and is not rejected: the method
has no CentersNotResolved path, always reports Reconstruction Complete,
silently consumes the current center-field values (which import seeds
with sx / 2) with npad added back, and overwrites the volume with the
kernel output. -/
theorem claim1_amended (k : Vol → List ℚ → (ℕ → ℚ) → String → String → ℕ → ℕ → ℕ → ℚ)
    (nan_clean : ℚ → ℚ) (s : State) :
    (reconstruct k nan_clean s).status = "Reconstruction Complete" ∧
    (reconstruct k nan_clean s).data =
      vmap nan_clean (tp_recon k s.data s.theta
        (center_array (padded_center s.upper_rot_center_blank s.npad)
          (padded_center s.lower_rot_center_blank s.npad) (ax0 s.data))
        s.recon_type s.filter_type) ∧
    (reconstruct k nan_clean s).upper_rot_center = s.upper_rot_center ∧
    (reconstruct k nan_clean s).lower_rot_center = s.lower_rot_center ∧
    ∀ sx sy sz dmax dmin data flat dark theta,
      (importState sx sy sz dmax dmin data flat dark theta).upper_rot_center = none ∧
      (importState sx sy sz dmax dmin data flat dark theta).upper_rot_center_blank
        = (sx : ℚ) / 2 := by
  exact ⟨rfl, rfl, rfl, rfl, fun _ _ _ _ _ _ _ _ _ => ⟨rfl, rfl⟩⟩

/-
Claim C2.  Ring removal does coerce its kernel width to odd, but zinger
removal coerces the zinger kernel-size field and then ignores it: the
size argument of tp.remove_outlier is the raw ring-width field value.
-/

/-- C2, evaluation at the failing input: with both kernel-size fields set
to the even value 4, the size actually handed to the outlier kernel is 4
(captured here by a kernel that leaks its size argument into the volume),
which is even and not the coerced value 5; ring removal, by contrast,
always hands the stripe kernel the coerced odd width. -/
theorem claim2_code_eval :
    (zinger_removal (fun _ _ sz _ => [[[(sz : ℚ)]]])
        { testState with ring_width_blank := 4, zinger_kernel_size_blank := 4 }).data
      = [[[(4 : ℚ)]]] ∧
    (4 : ℤ) % 2 = 0 ∧
    odd_coerced 4 = 5 ∧
    (∀ outlier s, (zinger_removal outlier s).data
        = outlier s.data s.zinger_diff_blank s.ring_width_blank s.ncore_blank) ∧
    (∀ stripe s, (remove_ring stripe s).data
        = stripe s.data (odd_coerced s.ring_width_blank)) := by
  exact ⟨by decide, by decide, by decide, fun _ _ => rfl, fun _ _ => rfl⟩

/-
Claim C6.  The export guard of APS_13BM.save_recon.
-/

/-- C6: every export request combining the packed-volume container (.vol)
with an unsigned dtype (u1 or u2) is rejected up front: the status is set
to the unsupported-combination message, the format-specific writer is
never invoked, and the volume is untouched. -/
theorem claim6_unsupported (s : State) (hfmt : s.save_data_type = ".vol")
    (hdt : s.save_dtype = "u1" ∨ s.save_dtype = "u2") :
    (save_recon s).2 = none ∧
    (save_recon s).1.status = "netCDF3 does not support unsigned images" ∧
    (save_recon s).1.data = s.data := by
  unfold save_recon
  rw [if_pos ⟨hfmt, hdt⟩]
  exact ⟨rfl, rfl, rfl⟩

/-- C6, witness: the guard fires on the concrete import-default state with
dtype u1 (the import default container format is .vol). -/
theorem claim6_witness :
    ({ testState with save_dtype := "u1" } : State).save_data_type = ".vol" ∧
    (save_recon { testState with save_dtype := "u1" }).2 = none ∧
    (save_recon { testState with save_dtype := "u1" }).1.status
      = "netCDF3 does not support unsigned images" := by
  have h := claim6_unsupported { testState with save_dtype := "u1" } (by decide) (Or.inl (by decide))
  exact ⟨by decide, h.1, h.2.1⟩

/-
Claim C3.  Only the 0-180 centering branch guards the requested slices,
and its guard compares them against the column extent data.shape[2] with
a strict inequality; the Entropy and Nghia Vo branches never fail.
-/

/-- C3, counterexample to the claim as stated: under the Nghia Vo variant
with the requested upper row index equal to the row extent (both 1), the
operation does not fail and does not leave the stored centers unchanged:
it reports Rotation Center found and overwrites the stored centers with
the kernel results. -/
theorem claim3_counterexample :
    ax1 c3State.data = 1 ∧ c3State.upper_rot_slice_blank = 1 ∧
    c3State.upper_rot_center = some 0 ∧
    (find_rot_center CK_const c3State).status = "Rotation Center found." ∧
    (find_rot_center CK_const c3State).upper_rot_center = some 3 ∧
    (find_rot_center CK_const c3State).upper_rot_center ≠ c3State.upper_rot_center := by
  refine ⟨by decide, by decide, by decide, by decide, by decide, by decide⟩

/-- C3, amended: only the 0-180 variant performs a range check, and it
compares the requested row indices against the column extent
data.shape[2] with a strict inequality: an index strictly greater than
the column count aborts centering with the matching out-of-range status
and leaves the stored centers, the center fields and the volume
unchanged; the Entropy and Nghia Vo variants run unguarded. -/
theorem claim3_amended (K : CenterKernels) (s : State)
    (h : s.find_center_type = "0-180") :
    (s.upper_rot_slice_blank > (ax2 s.data : ℤ) →
      (find_rot_center K s).status = "Upper slice out of range." ∧
      (find_rot_center K s).upper_rot_center = s.upper_rot_center ∧
      (find_rot_center K s).lower_rot_center = s.lower_rot_center ∧
      (find_rot_center K s).rot_center = s.rot_center ∧
      (find_rot_center K s).upper_rot_center_blank = s.upper_rot_center_blank ∧
      (find_rot_center K s).lower_rot_center_blank = s.lower_rot_center_blank ∧
      (find_rot_center K s).data = s.data) ∧
    (s.upper_rot_slice_blank ≤ (ax2 s.data : ℤ) →
      s.lower_rot_slice_blank > (ax2 s.data : ℤ) →
      (find_rot_center K s).status = "Lower slice out of range." ∧
      (find_rot_center K s).upper_rot_center = s.upper_rot_center ∧
      (find_rot_center K s).lower_rot_center = s.lower_rot_center ∧
      (find_rot_center K s).rot_center = s.rot_center ∧
      (find_rot_center K s).upper_rot_center_blank = s.upper_rot_center_blank ∧
      (find_rot_center K s).lower_rot_center_blank = s.lower_rot_center_blank ∧
      (find_rot_center K s).data = s.data) := by
  have hne : s.find_center_type ≠ "Entropy" := by rw [h]; decide
  constructor
  · intro hu
    refine ⟨?_, ?_, ?_, ?_, ?_, ?_, ?_⟩ <;>
      simp [find_rot_center, if_neg hne, if_pos h, if_pos hu]
  · intro hu hl
    refine ⟨?_, ?_, ?_, ?_, ?_, ?_, ?_⟩ <;>
      simp [find_rot_center, if_neg hne, if_pos h, if_neg (not_lt.mpr hu), if_pos hl]

/-- C3, witness: the upper guard of the 0-180 variant fires on a concrete
state whose requested upper row index 10 exceeds the column extent 3. -/
theorem claim3_witness :
    ({ testState with find_center_type := "0-180", upper_rot_slice_blank := 10 } : State).find_center_type = "0-180" ∧
    (10 : ℤ) > (ax2 testState.data : ℤ) ∧
    (find_rot_center CK_const
        { testState with find_center_type := "0-180", upper_rot_slice_blank := 10 }).status
      = "Upper slice out of range." ∧
    (find_rot_center CK_const
        { testState with find_center_type := "0-180", upper_rot_slice_blank := 10 }).upper_rot_center
      = testState.upper_rot_center := by
  have h := (claim3_amended CK_const
      { testState with find_center_type := "0-180", upper_rot_slice_blank := 10 }
      (by decide)).1 (by decide)
  exact ⟨by decide, by decide, h.1, h.2.1⟩

/-
Claim C4.  The padding guard of normalization is a strict comparison: a
target pad size equal to the current column count is not rejected; it
pads with npad = 0 and completes.  Only a strictly smaller target fails.
-/

/-- C4, counterexample to the claim as stated: with the target pad size
equal to the column count (both 2), the stage does not fail with the
pad-too-small status; it completes normalization with npad = 0. -/
theorem claim4_counterexample :
    c4State.pad_size = (ax2 (normCorrected K_id c4State) : ℤ) ∧
    (normalization K_id c4State).status = "Preprocessing Complete" ∧
    (normalization K_id c4State).status
      ≠ "Pad Size too small for dataset. Normalized but no padding." ∧
    (normalization K_id c4State).npad = 0 := by
  refine ⟨by decide, by decide, by decide, by decide⟩

/-- C4, amended: with a nonzero target pad size, a target strictly below
the current column count fails the stage with the pad-too-small status,
leaving the volume normalized but unpadded, npad reset to zero and the
already-applied flat/dark normalization not rolled back (and the dark
array still held); a target greater than or equal to the column count
(including equality) computes npad = floor((target - columns) / 2), which
is zero at equality, edge-pads symmetrically and completes the stage. -/
theorem claim4_amended (K : NormKernels) (s : State) (hps : s.pad_size ≠ 0) :
    (s.pad_size < (ax2 (normCorrected K s) : ℤ) →
      (normalization K s).status
        = "Pad Size too small for dataset. Normalized but no padding." ∧
      (normalization K s).npad = 0 ∧
      (normalization K s).data = normCorrected K s ∧
      (normalization K s).dark = s.dark) ∧
    ((ax2 (normCorrected K s) : ℤ) ≤ s.pad_size →
      (normalization K s).npad = (s.pad_size - (ax2 (normCorrected K s) : ℤ)) / 2 ∧
      (normalization K s).npad = ⌊((s.pad_size : ℚ) - (ax2 (normCorrected K s) : ℚ)) / 2⌋ ∧
      (normalization K s).data =
        vmap K.nan_clean (vmap K.minus_log (floor_negatives
          (tp_pad (normCorrected K s)
            ((s.pad_size - (ax2 (normCorrected K s) : ℤ)) / 2).toNat))) ∧
      (normalization K s).dark = none ∧
      (normalization K s).status = "Preprocessing Complete") := by
  constructor
  · intro hlt
    refine ⟨?_, ?_, ?_, ?_⟩ <;>
      simp [normalization, if_pos hps, if_pos hlt]
  · intro hge
    have h2 := Rat.floor_intCast_div_natCast (s.pad_size - (ax2 (normCorrected K s) : ℤ)) 2
    push_cast at h2
    have hdiv : (s.pad_size - (ax2 (normCorrected K s) : ℤ)) / 2
        = ⌊((s.pad_size : ℚ) - (ax2 (normCorrected K s) : ℚ)) / 2⌋ := h2.symm
    refine ⟨?_, ?_, ?_, ?_, ?_⟩ <;>
      simp [normalization, norm_tail, if_pos hps, if_neg (not_lt.mpr hge), hdiv]

/-- C4, witness: applying the amended theorem at the concrete
equal-pad-size state; both the npad value and the completion status come
from the theorem. -/
theorem claim4_witness :
    c4State.pad_size ≠ 0 ∧
    (ax2 (normCorrected K_id c4State) : ℤ) ≤ c4State.pad_size ∧
    (normalization K_id c4State).npad = 0 ∧
    (normalization K_id c4State).status = "Preprocessing Complete" := by
  have h := (claim4_amended K_id c4State (by decide)).2 (by decide)
  refine ⟨by decide, by decide, ?_, h.2.2.2.2⟩
  rw [h.1]
  decide

/-
Claim C5.  The per-angle center schedule of full-volume reconstruction.
-/

/-- C5: the interpolated center schedule satisfies
schedule i = upper + i * (lower - upper) / n for every index, starts at
the upper center, ends (at index n - 1) at lower - (lower - upper) / n,
is constant when the two centers coincide, and is strictly monotone in
the direction of the difference when they differ. -/
theorem claim5_schedule (upper lower : ℚ) (n : ℕ) (hn : 1 ≤ n) :
    (∀ i : ℕ, center_array upper lower n i
        = upper + (i : ℚ) * ((lower - upper) / (n : ℚ))) ∧
    center_array upper lower n 0 = upper ∧
    center_array upper lower n (n - 1) = lower - (lower - upper) / (n : ℚ) ∧
    (upper = lower →
      ∀ i j : ℕ, center_array upper lower n i = center_array upper lower n j) ∧
    (upper < lower → StrictMono (center_array upper lower n)) ∧
    (lower < upper → StrictAnti (center_array upper lower n)) := by
  have hn0 : ((n : ℚ)) ≠ 0 := by
    have : (0 : ℚ) < (n : ℚ) := by exact_mod_cast hn
    linarith
  refine ⟨fun i => rfl, by simp [center_array], ?_, ?_, ?_, ?_⟩
  · show upper + ((n - 1 : ℕ) : ℚ) * ((lower - upper) / (n : ℚ))
        = lower - (lower - upper) / (n : ℚ)
    push_cast [hn]
    field_simp
    ring
  · intro he i j
    simp [center_array, he]
  · intro hlt i j hij
    have hq : (i : ℚ) < (j : ℚ) := by exact_mod_cast hij
    have hpos : (0 : ℚ) < (lower - upper) / (n : ℚ) := by
      apply div_pos (by linarith)
      have : (0 : ℚ) < (n : ℚ) := by exact_mod_cast hn
      linarith
    show upper + (i : ℚ) * ((lower - upper) / (n : ℚ))
        < upper + (j : ℚ) * ((lower - upper) / (n : ℚ))
    nlinarith
  · intro hlt i j hij
    have hq : (i : ℚ) < (j : ℚ) := by exact_mod_cast hij
    have hneg : (lower - upper) / (n : ℚ) < 0 := by
      apply div_neg_of_neg_of_pos (by linarith)
      exact_mod_cast hn
    show upper + (j : ℚ) * ((lower - upper) / (n : ℚ))
        < upper + (i : ℚ) * ((lower - upper) / (n : ℚ))
    nlinarith

/-- C5, witness: the schedule for centers 1 and 3 over two angles starts
at 1 and its second entry is 2, by applying the schedule theorem at that
concrete input. -/
theorem claim5_witness :
    (1 : ℕ) ≤ 2 ∧ center_array 1 3 2 0 = 1 ∧ center_array 1 3 2 1 = 2 := by
  have h := claim5_schedule 1 3 2 (by norm_num)
  refine ⟨by norm_num, h.2.1, ?_⟩
  rw [h.1 1]
  norm_num

/-
Claim C7.  The normalization tail order is fixed (flooring, then
minus-log, then NaN cleanup), but the flooring constant written as 1**-6
in Python evaluates to 1, not to a near-zero value.
-/

/-- C7, counterexample to the claim as stated: a negative sample is
replaced by the sentinel, and the sentinel is exactly 1, not a near-zero
positive floor (it is not even below 1). -/
theorem claim7_counterexample :
    floor_negatives [[[-1]]] = [[[sentinel]]] ∧ sentinel = 1 ∧ ¬ sentinel < 1 := by
  refine ⟨?_, ?_, ?_⟩
  · norm_num [floor_negatives, vmap]
  · norm_num [sentinel]
  · norm_num [sentinel]

/-- C7, amended: in every normalization run that reaches the step after
optional padding, the fixed tail is applied in order: every negative
sample is replaced by the literal written as 1**-6 in the source, whose
value is 1 (so the subsequent negative logarithm maps those samples to
0); then the negative-log kernel is applied elementwise in place; then
the NaN-cleanup kernel is applied elementwise. -/
theorem claim7_amended (K : NormKernels) (s : State)
    (h : s.pad_size = 0 ∨ (ax2 (normCorrected K s) : ℤ) ≤ s.pad_size) :
    (normalization K s).data =
      vmap K.nan_clean (vmap K.minus_log (floor_negatives (norm_padded K s))) ∧
    (∀ v : Vol, floor_negatives v = vmap (fun x => if x < 0 then sentinel else x) v) ∧
    sentinel = 1 := by
  refine ⟨?_, fun _ => rfl, by norm_num [sentinel]⟩
  rcases h with h0 | hge
  · simp [normalization, norm_tail, norm_padded, h0]
  · by_cases hps : s.pad_size = 0
    · simp [normalization, norm_tail, norm_padded, hps]
    · simp [normalization, norm_tail, norm_padded, hps, if_neg (not_lt.mpr hge)]

/-- C7, witness: the amended tail equation applied at the concrete state
with padding disabled. -/
theorem claim7_witness :
    c7State.pad_size = 0 ∧
    (normalization K_id c7State).data =
      vmap K_id.nan_clean (vmap K_id.minus_log (floor_negatives (norm_padded K_id c7State))) := by
  exact ⟨by decide, (claim7_amended K_id c7State (Or.inl (by decide))).1⟩

/-
Claim C8.  Post-reconstruction geometry: the recorded NX and NY are both
the reconstructed extent minus twice the pad; given the kernel output
geometry both equal the unpadded column count, and the prior row count
becomes the depth NZ, so NY is not the prior row count.
-/

/-- C8, counterexample to the claim as stated: for a 2 by 1 by 4 volume
with npad = 1, the recorded row count after reconstruction is 2, not the
prior row count 1 (the prior row count instead becomes the depth sz). -/
theorem claim8_counterexample :
    ax1 c8State.data = 1 ∧ c8State.sy = 1 ∧ c8State.npad = 1 ∧
    (reconstruct k_const id c8State).sy = 2 ∧
    (reconstruct k_const id c8State).sy ≠ (ax1 c8State.data : ℤ) ∧
    (reconstruct k_const id c8State).sx = (ax2 c8State.data : ℤ) - 2 * c8State.npad ∧
    (reconstruct k_const id c8State).sz = (ax1 c8State.data : ℤ) := by
  refine ⟨by decide, by decide, by decide, by decide, by decide, by decide, by decide⟩

/-- C8, amended: after every full-volume reconstruction the recorded
geometry satisfies sx = columnCount - 2 * padAmount and also
sy = columnCount - 2 * padAmount (the row record is reduced by the column
padding as well; by the kernel output geometry both equal the unpadded
column count), while the prior row count becomes the depth record sz:
the angle axis collapses and the output volume is
(prior rows) by (columns) by (columns). -/
theorem claim8_amended (k : Vol → List ℚ → (ℕ → ℚ) → String → String → ℕ → ℕ → ℕ → ℚ)
    (nan_clean : ℚ → ℚ) (s : State)
    (h1 : 0 < ax1 s.data) (h2 : 0 < ax2 s.data) :
    (reconstruct k nan_clean s).sx = (ax2 s.data : ℤ) - 2 * s.npad ∧
    (reconstruct k nan_clean s).sy = (ax2 s.data : ℤ) - 2 * s.npad ∧
    (reconstruct k nan_clean s).sz = (ax1 s.data : ℤ) ∧
    ax0 (reconstruct k nan_clean s).data = ax1 s.data ∧
    ax1 (reconstruct k nan_clean s).data = ax2 s.data ∧
    ax2 (reconstruct k nan_clean s).data = ax2 s.data := by
  refine ⟨?_, ?_, ?_, ?_, ?_, ?_⟩ <;>
    simp [reconstruct, ax0_vmap, ax1_vmap, ax2_vmap, ax0_tp_recon,
      ax1_tp_recon _ _ _ _ _ _ h1, ax2_tp_recon _ _ _ _ _ _ h1 h2]

/-- C8, witness: the amended geometry equations applied at the concrete
2 by 1 by 4 state with npad = 1. -/
theorem claim8_witness :
    0 < ax1 c8State.data ∧ 0 < ax2 c8State.data ∧
    (reconstruct k_const id c8State).sx = (ax2 c8State.data : ℤ) - 2 * c8State.npad ∧
    (reconstruct k_const id c8State).sy = (ax2 c8State.data : ℤ) - 2 * c8State.npad ∧
    (reconstruct k_const id c8State).sz = (ax1 c8State.data : ℤ) := by
  have h := claim8_amended k_const id c8State (by decide) (by decide)
  exact ⟨by decide, by decide, h.1, h.2.1, h.2.2.1⟩

/-
Claim C9.  Dual center representation: the fields display the un-padded
coordinate, reconstruction adds npad back.
-/

theorem find_rot_center_entropy (K : CenterKernels) (s : State)
    (h : s.find_center_type = "Entropy") :
    find_rot_center K s =
      center_labels_update
        { s with
            upper_rot_center := some (K.find_center (axis0Slice s.data s.upper_rot_slice_blank)
              s.theta s.upper_rot_slice_blank s.upper_rot_center_blank s.tol_blank)
            lower_rot_center := some (K.find_center (axis0Slice s.data s.lower_rot_slice_blank)
              s.theta s.upper_rot_slice_blank s.lower_rot_center_blank s.tol_blank)
            rot_center := some ((K.find_center (axis0Slice s.data s.upper_rot_slice_blank)
                  s.theta s.upper_rot_slice_blank s.upper_rot_center_blank s.tol_blank
                + K.find_center (axis0Slice s.data s.lower_rot_slice_blank)
                  s.theta s.upper_rot_slice_blank s.lower_rot_center_blank s.tol_blank) / 2) } := by
  unfold find_rot_center
  rw [h]
  simp

theorem find_rot_center_vo (K : CenterKernels) (s : State)
    (h : s.find_center_type = "Nghia Vo") :
    find_rot_center K s =
      center_labels_update
        { s with
            upper_rot_center := some (K.find_center_vo (rowSlice s.data s.upper_rot_slice_blank))
            lower_rot_center := some (K.find_center_vo (rowSlice s.data s.lower_rot_slice_blank))
            rot_center := some ((K.find_center_vo (rowSlice s.data s.upper_rot_slice_blank)
                + K.find_center_vo (rowSlice s.data s.lower_rot_slice_blank)) / 2) } := by
  unfold find_rot_center
  rw [h]
  simp

theorem find_rot_center_pc (K : CenterKernels) (s : State)
    (h : s.find_center_type = "0-180")
    (hu : s.upper_rot_slice_blank ≤ (ax2 s.data : ℤ))
    (hl : s.lower_rot_slice_blank ≤ (ax2 s.data : ℤ)) :
    find_rot_center K s =
      center_labels_update
        { s with
            upper_rot_center := some (K.find_center_pc (projAt s.data s.upper_rot_slice_blank)
              (projAt s.data ((s.upper_rot_slice_blank + (ax0 s.data : ℤ) / 2) % (ax0 s.data : ℤ)))
              s.tol_blank)
            lower_rot_center := some (K.find_center_pc (projAt s.data s.lower_rot_slice_blank)
              (projAt s.data ((s.lower_rot_slice_blank + (ax0 s.data : ℤ) / 2) % (ax0 s.data : ℤ)))
              s.tol_blank)
            rot_center := some ((K.find_center_pc (projAt s.data s.upper_rot_slice_blank)
                  (projAt s.data ((s.upper_rot_slice_blank + (ax0 s.data : ℤ) / 2) % (ax0 s.data : ℤ)))
                  s.tol_blank
                + K.find_center_pc (projAt s.data s.lower_rot_slice_blank)
                  (projAt s.data ((s.lower_rot_slice_blank + (ax0 s.data : ℤ) / 2) % (ax0 s.data : ℤ)))
                  s.tol_blank) / 2) } := by
  unfold find_rot_center
  rw [h]
  simp [if_neg (not_lt.mpr hu), if_neg (not_lt.mpr hl)]

/-- Core of C9: for any state whose centering results are set to cu and
cl and whose padding is active, the label update displays cu - npad and
cl - npad, adding npad back recovers cu and cl, and both the full-volume
and the single-slice reconstruction consume exactly the recovered
padded-space centers. -/
theorem dual_center_update (k : Vol → List ℚ → (ℕ → ℚ) → String → String → ℕ → ℕ → ℕ → ℚ)
    (nan_clean : ℚ → ℚ) (t : State) (cu cl : ℚ)
    (hu : t.upper_rot_center = some cu) (hl : t.lower_rot_center = some cl)
    (hpad : t.npad ≠ 0) :
    (center_labels_update t).upper_rot_center = some cu ∧
    (center_labels_update t).lower_rot_center = some cl ∧
    (center_labels_update t).npad = t.npad ∧
    (center_labels_update t).upper_rot_center_blank = cu - (t.npad : ℚ) ∧
    (center_labels_update t).lower_rot_center_blank = cl - (t.npad : ℚ) ∧
    padded_center (center_labels_update t).upper_rot_center_blank t.npad = cu ∧
    padded_center (center_labels_update t).lower_rot_center_blank t.npad = cl ∧
    (reconstruct k nan_clean (center_labels_update t)).data =
      vmap nan_clean (tp_recon k t.data t.theta
        (center_array cu cl (ax0 t.data)) t.recon_type t.filter_type) ∧
    (up_recon_slice k (center_labels_update t)).data_slice =
      some (tp_recon k (rowSlice t.data t.upper_rot_slice_blank) t.theta
        (fun _ => cu) t.recon_type "") := by
  have e1 : cu - (t.npad : ℚ) + (t.npad : ℚ) = cu := by ring
  have e2 : cl - (t.npad : ℚ) + (t.npad : ℚ) = cl := by ring
  refine ⟨?_, ?_, ?_, ?_, ?_, ?_, ?_, ?_, ?_⟩ <;>
    simp [center_labels_update, reconstruct, up_recon_slice, padded_center,
      hu, hl, hpad, e1, e2]

/-- C9: whenever padding is active, after center resolution under any of
the three variants (with the 0-180 guards passing) the displayed center
fields hold the computed padded-space centers minus npad, adding npad
back recovers the stored padded-space centers exactly, and both the
full-volume reconstruction and the single-slice preview consume the
recovered padded-space values. -/
theorem claim9_dual_center (K : CenterKernels)
    (k : Vol → List ℚ → (ℕ → ℚ) → String → String → ℕ → ℕ → ℕ → ℚ)
    (nan_clean : ℚ → ℚ) (s : State) (hpad : 0 < s.npad)
    (hvar : s.find_center_type = "Entropy" ∨ s.find_center_type = "Nghia Vo" ∨
      (s.find_center_type = "0-180" ∧
        s.upper_rot_slice_blank ≤ (ax2 s.data : ℤ) ∧
        s.lower_rot_slice_blank ≤ (ax2 s.data : ℤ))) :
    ∃ cu cl : ℚ,
      (find_rot_center K s).upper_rot_center = some cu ∧
      (find_rot_center K s).lower_rot_center = some cl ∧
      (find_rot_center K s).npad = s.npad ∧
      (find_rot_center K s).upper_rot_center_blank = cu - (s.npad : ℚ) ∧
      (find_rot_center K s).lower_rot_center_blank = cl - (s.npad : ℚ) ∧
      padded_center (find_rot_center K s).upper_rot_center_blank s.npad = cu ∧
      padded_center (find_rot_center K s).lower_rot_center_blank s.npad = cl ∧
      (reconstruct k nan_clean (find_rot_center K s)).data =
        vmap nan_clean (tp_recon k s.data s.theta
          (center_array cu cl (ax0 s.data)) s.recon_type s.filter_type) ∧
      (up_recon_slice k (find_rot_center K s)).data_slice =
        some (tp_recon k (rowSlice s.data s.upper_rot_slice_blank) s.theta
          (fun _ => cu) s.recon_type "") := by
  have hpad0 : s.npad ≠ 0 := by omega
  rcases hvar with h | h | ⟨h, hu0, hl0⟩
  · rw [find_rot_center_entropy K s h]
    exact ⟨_, _, dual_center_update k nan_clean _ _ _ rfl rfl hpad0⟩
  · rw [find_rot_center_vo K s h]
    exact ⟨_, _, dual_center_update k nan_clean _ _ _ rfl rfl hpad0⟩
  · rw [find_rot_center_pc K s h hu0 hl0]
    exact ⟨_, _, dual_center_update k nan_clean _ _ _ rfl rfl hpad0⟩

/-- C9, witness: the invariant applied at the concrete padded state
(npad = 2) under the default Nghia Vo variant; the displayed center is
the computed value 3 minus 2, and adding the pad back recovers 3. -/
theorem claim9_witness :
    (0 : ℤ) < c9State.npad ∧
    (find_rot_center CK_const c9State).upper_rot_center_blank = 1 ∧
    padded_center (find_rot_center CK_const c9State).upper_rot_center_blank c9State.npad = 3 := by
  obtain ⟨cu, cl, h1, h2, h3, h4, h5, h6, h7, h8, h9⟩ :=
    claim9_dual_center CK_const k_const id c9State (by decide) (Or.inr (Or.inl (by decide)))
  have hcu : cu = 3 := by
    have := h1
    rw [show (find_rot_center CK_const c9State).upper_rot_center = some 3 from by decide] at this
    exact (Option.some_inj.mp this).symm
  refine ⟨by decide, ?_, ?_⟩
  · rw [h4, hcu]
    norm_num [c9State, testState, importState]
  · rw [h6, hcu]

/-
Claim C10.  The tilt-correction loop rotates projections 0 through
nangles - 2 in place and never visits the final projection; no Dataset
field other than the volume changes.
-/

theorem rotateFirst_length (rot : Mat → Mat) (n : ℕ) (v : Vol) :
    (rotateFirst rot n v).length = v.length := by
  induction v generalizing n with
  | nil => cases n <;> simp [rotateFirst]
  | cons p t ih =>
    cases n with
    | zero => simp [rotateFirst]
    | succ m => simp [rotateFirst, ih]

theorem rotateFirst_get_lt (rot : Mat → Mat) (n : ℕ) (v : Vol) (i : ℕ) (h : i < n) :
    (rotateFirst rot n v).get? i = (v.get? i).map rot := by
  induction v generalizing n i with
  | nil => cases n <;> simp [rotateFirst]
  | cons p t ih =>
    cases n with
    | zero => omega
    | succ m =>
      cases i with
      | zero => simp [rotateFirst]
      | succ j => simpa [rotateFirst] using ih m j (by omega)

theorem rotateFirst_get_ge (rot : Mat → Mat) (n : ℕ) (v : Vol) (i : ℕ) (h : n ≤ i) :
    (rotateFirst rot n v).get? i = v.get? i := by
  induction v generalizing n i with
  | nil => cases n <;> simp [rotateFirst]
  | cons p t ih =>
    cases n with
    | zero => simp [rotateFirst]
    | succ m =>
      cases i with
      | zero => omega
      | succ j => simpa [rotateFirst] using ih m j (by omega)

/-- C10: tilt correction replaces exactly the projections at indices 0
through nangles - 2 with their rotations by the tilt angle, leaves the
final projection (index nangles - 1) unchanged, preserves the number of
projections, and modifies no Dataset field other than the volume (the
reference arrays, the angle list, the padding state, the stored centers,
the cached extrema, the geometry records and the compute hints are all
untouched). -/
theorem claim10_tilt (rot : Mat → ℚ → Mat) (s : State) :
    (tilt_correction rot s).data.length = s.data.length ∧
    (∀ i : ℕ, i < s.data.length - 1 →
      (tilt_correction rot s).data.get? i
        = (s.data.get? i).map (fun p => rot p (tilt_angle s))) ∧
    (0 < s.data.length →
      (tilt_correction rot s).data.get? (s.data.length - 1)
        = s.data.get? (s.data.length - 1)) ∧
    (tilt_correction rot s).flat = s.flat ∧
    (tilt_correction rot s).dark = s.dark ∧
    (tilt_correction rot s).theta = s.theta ∧
    (tilt_correction rot s).npad = s.npad ∧
    (tilt_correction rot s).pad_size = s.pad_size ∧
    (tilt_correction rot s).upper_rot_center = s.upper_rot_center ∧
    (tilt_correction rot s).lower_rot_center = s.lower_rot_center ∧
    (tilt_correction rot s).rot_center = s.rot_center ∧
    (tilt_correction rot s).data_max = s.data_max ∧
    (tilt_correction rot s).data_min = s.data_min ∧
    (tilt_correction rot s).ncore = s.ncore ∧
    (tilt_correction rot s).nchunk = s.nchunk ∧
    (tilt_correction rot s).sx = s.sx ∧
    (tilt_correction rot s).sy = s.sy ∧
    (tilt_correction rot s).sz = s.sz := by
  refine ⟨?_, ?_, ?_, rfl, rfl, rfl, rfl, rfl, rfl, rfl, rfl, rfl, rfl, rfl, rfl,
    rfl, rfl, rfl⟩
  · simp [tilt_correction, rotateFirst_length]
  · intro i hi
    simpa [tilt_correction] using rotateFirst_get_lt _ _ s.data i hi
  · intro hlen
    simpa [tilt_correction] using
      rotateFirst_get_ge (fun p => rot p (tilt_angle s)) (s.data.length - 1) s.data
        (s.data.length - 1) (le_refl _)

/-- C10, witness: on the concrete two-projection import state, the first
projection is rotated and the last one is untouched. -/
theorem claim10_witness :
    0 < testState.data.length ∧ (0 : ℕ) < testState.data.length - 1 ∧
    (tilt_correction rotK testState).data.get? (testState.data.length - 1)
      = testState.data.get? (testState.data.length - 1) ∧
    (tilt_correction rotK testState).data.get? 0
      = (testState.data.get? 0).map (fun p => rotK p (tilt_angle testState)) ∧
    (tilt_correction rotK testState).npad = testState.npad := by
  have h := claim10_tilt rotK testState
  exact ⟨by decide, by decide, h.2.2.1 (by decide), h.2.1 0 (by decide),
    h.2.2.2.2.2.2.1⟩
